import Mathlib

/-!
Verification of the managed-network configuration model and the reference
notebook of `azureml-examples` (workspace managed-network tutorial plus the
LightGBM sweep-job configuration).

The repository fragment contains two source artifacts:
* `sdk/python/resources/workspace/workspace-managed-network.ipynb` — a
  straight-line script issuing remote management-plane calls, and
* an unnamed sweep-job YAML document (`lightgbm-iris-sweep-example`).

The configuration model, its validator and the remote client facade are
described at design level by the specification; they are not implemented
under the repository fragment itself, so they are modelled here from the
specification's words.  The notebook's call sequence and the sweep-job
document are embedded directly from the sources.
-/

namespace ManagedNet

/-- Isolation mode of a workspace managed network: `Disabled`,
`AllowInternetOutbound` (AIO) or `AllowOnlyApprovedOutbound` (AOAO). -/
inductive IsolationMode where
  | Disabled
  | AllowInternetOutbound
  | AllowOnlyApprovedOutbound
deriving DecidableEq, Repr

/-- Status of an outbound rule or of the managed network, assigned by the
remote control plane once the network is provisioned. -/
inductive RuleStatus where
  | Active
  | Inactive
deriving DecidableEq, Repr

/-- Category of an outbound rule: user defined rules are added by the client,
required rules are added by the remote system itself. -/
inductive RuleCategory where
  | UserDefined
  | Required
deriving DecidableEq, Repr

/-- The destination payload of an outbound rule: the three possible rule
types are ServiceTag, FQDN and PrivateEndpoint. -/
inductive RuleDest where
  | serviceTag (service_tag : String) (protocol : String) (port_ranges : String)
  | fqdn (destination : String)
  | privateEndpoint (service_resource_id : String) (subresource_target : String)
      (spark_enabled : Bool)
deriving DecidableEq, Repr

/-- An outbound rule of the managed network: a name, a destination, and the
`status` and `category` fields that only the remote system populates (they
are `none` on any client-constructed rule). -/
structure OutboundRule where
  name : String
  dest : RuleDest
  status : Option RuleStatus
  category : Option RuleCategory
deriving DecidableEq, Repr

/-- Client construction of a ServiceTag outbound rule, mirroring the
`ServiceTagDestination(name=..., service_tag=..., protocol=..., port_ranges=...)`
entity used in the notebook; the client supplies no status or category. -/
def ServiceTagDestination (name service_tag protocol port_ranges : String) :
    OutboundRule :=
  { name := name
    dest := RuleDest.serviceTag service_tag protocol port_ranges
    status := none
    category := none }

/-- Client construction of an FQDN outbound rule, mirroring the
`FqdnDestination(name=..., destination=...)` entity used in the notebook. -/
def FqdnDestination (name destination : String) : OutboundRule :=
  { name := name
    dest := RuleDest.fqdn destination
    status := none
    category := none }

/-- Client construction of a PrivateEndpoint outbound rule, mirroring the
`PrivateEndpointDestination(name=..., service_resource_id=...,
subresource_target=...)` entity used in the notebook (`spark_enabled`
defaults to `false` there). -/
def PrivateEndpointDestination (name service_resource_id subresource_target : String)
    (spark_enabled : Bool) : OutboundRule :=
  { name := name
    dest := RuleDest.privateEndpoint service_resource_id subresource_target spark_enabled
    status := none
    category := none }

/-- The managed-network configuration: an isolation mode together with the
list of outbound rules, mirroring
`ManagedNetwork(isolation_mode=..., outbound_rules=[...])` in the notebook. -/
structure ManagedNetwork where
  isolation_mode : IsolationMode
  outbound_rules : List OutboundRule
deriving DecidableEq, Repr

namespace Validator

open ManagedNet

/-- Modelled from the spec: the `ValidationError` values of the validator
contract (`validate(config) -> Result<(), ValidationError>`); the validator
itself is not part of the repository fragment (the notebook only invokes the
remote service that enforces these rules). -/
inductive ValidationError where
  | DuplicateRuleName
  | InvalidTransition
  | UnsupportedRuleForMode
deriving DecidableEq, Repr

/-- Modelled from the spec: a rule type's compatibility with an isolation
mode — a `PrivateEndpointRule` is permitted under any isolation mode, while
a `ServiceTagRule` or `FqdnRule` is rejected under `AllowInternetOutbound`. -/
def ruleSupportedForMode (mode : IsolationMode) (r : OutboundRule) : Bool :=
  match r.dest with
  | RuleDest.privateEndpoint _ _ _ => true
  | _ => decide (mode ≠ IsolationMode.AllowInternetOutbound)

/-- The names of the outbound rules of a configuration, in order. -/
def ruleNames (rules : List OutboundRule) : List String :=
  rules.map OutboundRule.name

/-- Whether some rule name occurs twice in the list. -/
def hasDuplicateNames : List OutboundRule → Bool
  | [] => false
  | r :: rs => rs.any (fun s => s.name == r.name) || hasDuplicateNames rs

/-- Modelled from the spec: `validate(config)` — fails with
`DuplicateRuleName` if two rules share a name, and with
`UnsupportedRuleForMode` if some rule's type is incompatible with the
configuration's isolation mode; otherwise succeeds.  Missing from the
repository fragment, which delegates enforcement to the remote service. -/
def validate (cfg : ManagedNetwork) : Except ValidationError Unit :=
  if hasDuplicateNames cfg.outbound_rules = true then
    Except.error ValidationError.DuplicateRuleName
  else if cfg.outbound_rules.all (ruleSupportedForMode cfg.isolation_mode) = true then
    Except.ok ()
  else
    Except.error ValidationError.UnsupportedRuleForMode

/-- Modelled from the spec: the one-directional isolation-mode transition
check — once the mode is `AllowOnlyApprovedOutbound`, any update to a
different mode fails with `InvalidTransition`. -/
def validateTransition (current target : IsolationMode) :
    Except ValidationError Unit :=
  if current = IsolationMode.AllowOnlyApprovedOutbound ∧
      target ≠ IsolationMode.AllowOnlyApprovedOutbound then
    Except.error ValidationError.InvalidTransition
  else
    Except.ok ()

/-- Modelled from the spec: adding an outbound rule to a configuration —
rejected with `UnsupportedRuleForMode` when the rule type is incompatible
with the current isolation mode, rejected with `DuplicateRuleName` when a
rule of that name is already present, and otherwise appended. -/
def addOutboundRule (cfg : ManagedNetwork) (r : OutboundRule) :
    Except ValidationError ManagedNetwork :=
  if ruleSupportedForMode cfg.isolation_mode r = true then
    if r.name ∈ ruleNames cfg.outbound_rules then
      Except.error ValidationError.DuplicateRuleName
    else
      Except.ok { cfg with outbound_rules := cfg.outbound_rules ++ [r] }
  else
    Except.error ValidationError.UnsupportedRuleForMode

/-- Modelled from the spec: updating the isolation mode of an existing
configuration, guarded by the pre-flight transition check. -/
def updateIsolationMode (cfg : ManagedNetwork) (target : IsolationMode) :
    Except ValidationError ManagedNetwork :=
  match validateTransition cfg.isolation_mode target with
  | Except.error e => Except.error e
  | Except.ok _ => Except.ok { cfg with isolation_mode := target }

/-- Modelled from the spec: the client-side operations that produce or
mutate a managed-network configuration (workspace creation carrying a
configuration, isolation-mode update, rule addition). -/
inductive ClientOp where
  | createWorkspace (cfg : ManagedNetwork)
  | updateIsolationMode (target : IsolationMode)
  | addOutboundRule (r : OutboundRule)
deriving DecidableEq, Repr

/-- Modelled from the spec: applying a client operation to the current
configuration, with the pre-flight validation of each operation. -/
def applyClientOp (cfg : ManagedNetwork) : ClientOp → Except ValidationError ManagedNetwork
  | ClientOp.createWorkspace c =>
      match validate c with
      | Except.ok _ => Except.ok c
      | Except.error e => Except.error e
  | ClientOp.updateIsolationMode target => updateIsolationMode cfg target
  | ClientOp.addOutboundRule r => addOutboundRule cfg r

end Validator

end ManagedNet

namespace SweepJob

/-- A `uniform` search-space distribution with its two bounds, as written in
the sweep-job document (`type: uniform`, `min_value`, `max_value`). -/
structure UniformDistribution where
  min_value : ℚ
  max_value : ℚ
deriving DecidableEq, Repr

/-- A `choice` search-space distribution listing its values. -/
structure ChoiceDistribution where
  values : List String
deriving DecidableEq, Repr

/-- The search space of the sweep-job document: `learning_rate` is uniform
and `boosting` is a choice. -/
structure SearchSpace where
  learning_rate : UniformDistribution
  boosting : ChoiceDistribution
deriving DecidableEq, Repr

/-- The sweep objective (`goal`, `primary_metric`). -/
structure Objective where
  goal : String
  primary_metric : String
deriving DecidableEq, Repr

/-- The sweep limits (`max_total_trials`, `max_concurrent_trials`,
`timeout`, all natural numbers in the document). -/
structure Limits where
  max_total_trials : ℕ
  max_concurrent_trials : ℕ
  timeout : ℕ
deriving DecidableEq, Repr

/-- The sweep-job configuration document fields relevant to its numeric
well-formedness, together with its identifying names. -/
structure SweepJobConfig where
  sampling_algorithm : String
  search_space : SearchSpace
  objective : Objective
  limits : Limits
  display_name : String
  experiment_name : String
deriving DecidableEq, Repr

/-- The static sweep-job document of the repository
(`lightgbm-iris-sweep-example`), field for field from the YAML source:
`learning_rate` uniform on [0.01, 0.9], `boosting` a choice of gbdt/dart,
random sampling, minimize `test-multi_logloss`, limits 20/10/7200. -/
def lightgbmIrisSweep : SweepJobConfig :=
  { sampling_algorithm := "random"
    search_space :=
      { learning_rate := { min_value := 0.01, max_value := 0.9 }
        boosting := { values := ["gbdt", "dart"] } }
    objective := { goal := "minimize", primary_metric := "test-multi_logloss" }
    limits := { max_total_trials := 20, max_concurrent_trials := 10, timeout := 7200 }
    display_name := "lightgbm-iris-sweep-example"
    experiment_name := "lightgbm-iris-sweep-example" }

end SweepJob

namespace ManagedNet

/-- A workspace resource as built in the notebook:
`Workspace(name=..., location=..., managed_network=...)`. -/
structure Workspace where
  name : String
  location : String
  managed_network : ManagedNetwork
deriving DecidableEq, Repr

namespace Validator

/-- A rule whose remotely assigned fields are still unpopulated, as on every
client-constructed rule. -/
def ruleUnassigned (r : OutboundRule) : Bool :=
  decide (r.status = none) && decide (r.category = none)

/-- Every rule of the list has unpopulated status and category. -/
def rulesUnassigned (rules : List OutboundRule) : Bool :=
  rules.all ruleUnassigned

/-- The rule payloads carried by a client operation all have unpopulated
status and category. -/
def opRulesUnassigned : ClientOp → Bool
  | ClientOp.createWorkspace c => rulesUnassigned c.outbound_rules
  | ClientOp.updateIsolationMode _ => true
  | ClientOp.addOutboundRule r => ruleUnassigned r

end Validator

namespace Facade

open Validator

/-- Modelled from the spec: the serialized request shapes of the external
management API, one per facade operation, mirroring the notebook's
`workspaces.begin_create`, `workspaces.begin_update`,
`workspaces.begin_provision_network`, `workspace_outbound_rules.begin_create`,
`workspaces.get` and `workspaces.begin_delete` calls.  The facade itself is
not implemented in the repository fragment. -/
inductive RemoteCall where
  | workspacesBeginCreate (ws : Workspace)
  | workspacesBeginUpdate (ws : Workspace)
  | workspacesBeginProvisionNetwork (workspace_name : String)
  | workspaceOutboundRulesBeginCreate (workspace_name : String) (r : OutboundRule)
  | workspacesGet (workspace_name : String)
  | workspacesBeginDelete (workspace_name : String) (delete_dependent_resources : Bool)
deriving DecidableEq, Repr

/-- Modelled from the spec: a response of the external management API — an
eventual result (a workspace resource) or a remote error. -/
inductive RemoteResponse where
  | succeeded (ws : Workspace)
  | failed (message : String)
deriving DecidableEq, Repr

/-- Modelled from the spec: the local result type the facade maps remote
responses into. -/
inductive FacadeResult where
  | completed (ws : Workspace)
  | remoteFailure (message : String)
deriving DecidableEq, Repr

/-- Modelled from the spec: the operations the remote client facade
exposes (`createWorkspace`, `updateIsolationMode`, `provisionNetwork`,
`addOutboundRule`, `getWorkspace`, `deleteWorkspace`). -/
inductive FacadeOp where
  | createWorkspace (ws : Workspace)
  | updateIsolationMode (target : IsolationMode)
  | provisionNetwork
  | addOutboundRule (r : OutboundRule)
  | getWorkspace
  | deleteWorkspace
deriving DecidableEq, Repr

/-- Modelled from the spec: serialization of a facade operation against the
current workspace into the external API's request shape. -/
def serializeOp (current : Workspace) : FacadeOp → RemoteCall
  | FacadeOp.createWorkspace ws => RemoteCall.workspacesBeginCreate ws
  | FacadeOp.updateIsolationMode target =>
      RemoteCall.workspacesBeginUpdate
        { current with managed_network :=
            { current.managed_network with isolation_mode := target } }
  | FacadeOp.provisionNetwork => RemoteCall.workspacesBeginProvisionNetwork current.name
  | FacadeOp.addOutboundRule r =>
      RemoteCall.workspaceOutboundRulesBeginCreate current.name r
  | FacadeOp.getWorkspace => RemoteCall.workspacesGet current.name
  | FacadeOp.deleteWorkspace => RemoteCall.workspacesBeginDelete current.name true

/-- Modelled from the spec: deserialization of the remote response back
into the local result type, structure for structure. -/
def deserializeResponse : RemoteResponse → FacadeResult
  | RemoteResponse.succeeded ws => FacadeResult.completed ws
  | RemoteResponse.failed m => FacadeResult.remoteFailure m

/-- Modelled from the spec: the remote client facade — serialize the
operation, issue exactly one call against the external API, deserialize the
response.  The second component records the list of remote calls issued. -/
def facade (remote : RemoteCall → RemoteResponse) (current : Workspace)
    (op : FacadeOp) : FacadeResult × List RemoteCall :=
  let call := serializeOp current op
  (deserializeResponse (remote call), [call])

/-- Modelled from the spec: the client-side pre-flight validation of an
operation against the current workspace state (configuration validation for
creation, transition check for mode updates, rule checks for rule
addition; the read-only and provisioning operations have nothing to
validate locally). -/
def preflight (current : Workspace) : FacadeOp → Except ValidationError Unit
  | FacadeOp.createWorkspace ws => validate ws.managed_network
  | FacadeOp.updateIsolationMode target =>
      validateTransition current.managed_network.isolation_mode target
  | FacadeOp.addOutboundRule r =>
      match addOutboundRule current.managed_network r with
      | Except.ok _ => Except.ok ()
      | Except.error e => Except.error e
  | _ => Except.ok ()

/-- Modelled from the spec: a client operation — the pre-flight validation
runs first and, only if it succeeds, the facade issues the single remote
call; a validation error is returned synchronously with no remote call
issued. -/
def clientOperation (remote : RemoteCall → RemoteResponse) (current : Workspace)
    (op : FacadeOp) : Except ValidationError FacadeResult × List RemoteCall :=
  match preflight current op with
  | Except.error e => (Except.error e, [])
  | Except.ok _ =>
      let res := facade remote current op
      (Except.ok res.1, res.2)

end Facade

end ManagedNet

namespace Notebook

open ManagedNet ManagedNet.Facade

/-- The managed-network settings of notebook cell 1.3:
`ManagedNetwork(isolation_mode=IsolationMode.ALLOW_INTERNET_OUTBOUND,
outbound_rules=[])`. -/
def managed_network : ManagedNetwork :=
  { isolation_mode := IsolationMode.AllowInternetOutbound, outbound_rules := [] }

/-- The workspace name built in cell 1.4 from a datetime stamp:
`"mlw-mvnet-prod-" + datetime.now().strftime(...)`. -/
def mvnet_workspace_name (timestamp : String) : String :=
  "mlw-mvnet-prod-" ++ timestamp

/-- The workspace resource of cell 1.4: `Workspace(name=...,
location="eastus", managed_network=managed_network)`. -/
def ws_mvnet (timestamp : String) : Workspace :=
  { name := mvnet_workspace_name timestamp
    location := "eastus"
    managed_network := managed_network }

/-- One statement of the notebook script: the remote call it issues,
whether it is a long-running `begin_*` operation, and whether the script
observes its result before the next statement (`.result()` for long-running
operations, the direct return value for `get`). -/
structure NotebookStep where
  call : RemoteCall
  longRunning : Bool
  resultAwaited : Bool
deriving DecidableEq, Repr

/-- The remote operations of the notebook, one per code cell in source
order: create the workspace (1.4), get it (1.5), update the isolation mode
to AllowOnlyApprovedOutbound (1.5), provision the network (2), create the
ServiceTag, FQDN and PrivateEndpoint outbound rules (3.1 to 3.3), get the
workspace again (3.4) and delete it (clean up).  Every `begin_*` call is
immediately chained with `.result()` in the source. -/
def notebookSteps (timestamp storage_account : String) : List NotebookStep :=
  [ { call := RemoteCall.workspacesBeginCreate (ws_mvnet timestamp)
      longRunning := true, resultAwaited := true },
    { call := RemoteCall.workspacesGet (mvnet_workspace_name timestamp)
      longRunning := false, resultAwaited := true },
    { call := RemoteCall.workspacesBeginUpdate
        { ws_mvnet timestamp with managed_network :=
            { managed_network with
                isolation_mode := IsolationMode.AllowOnlyApprovedOutbound } }
      longRunning := true, resultAwaited := true },
    { call := RemoteCall.workspacesBeginProvisionNetwork (mvnet_workspace_name timestamp)
      longRunning := true, resultAwaited := true },
    { call := RemoteCall.workspaceOutboundRulesBeginCreate (mvnet_workspace_name timestamp)
        (ManagedNet.ServiceTagDestination "servicetagrule" "AzureCloud" "TCP" "80, 8080")
      longRunning := true, resultAwaited := true },
    { call := RemoteCall.workspaceOutboundRulesBeginCreate (mvnet_workspace_name timestamp)
        (ManagedNet.FqdnDestination "fqdnrule" "pypi.org")
      longRunning := true, resultAwaited := true },
    { call := RemoteCall.workspaceOutboundRulesBeginCreate (mvnet_workspace_name timestamp)
        (ManagedNet.PrivateEndpointDestination "privateendpointrule" storage_account
          "table" false)
      longRunning := true, resultAwaited := true },
    { call := RemoteCall.workspacesGet (mvnet_workspace_name timestamp)
      longRunning := false, resultAwaited := true },
    { call := RemoteCall.workspacesBeginDelete (mvnet_workspace_name timestamp) true
      longRunning := true, resultAwaited := true } ]

/-- Events of an execution trace: operation `i` is issued, or operation `i`
completes (its result is observed). -/
inductive TraceEvent where
  | issued (i : ℕ)
  | completed (i : ℕ)
deriving DecidableEq, Repr

/-- Sequential execution of a straight-line script from step index `i` with
a set of pending (issued but not awaited) operations: an awaited step
completes before the next statement runs, an unawaited step stays pending
until the script ends. -/
def runScriptFrom (i : ℕ) (pending : List ℕ) : List NotebookStep → List TraceEvent
  | [] => pending.map TraceEvent.completed
  | s :: rest =>
      if s.resultAwaited then
        TraceEvent.issued i :: TraceEvent.completed i :: runScriptFrom (i + 1) pending rest
      else
        TraceEvent.issued i :: runScriptFrom (i + 1) (pending ++ [i]) rest

/-- The execution trace of a straight-line script. -/
def runScript (steps : List NotebookStep) : List TraceEvent :=
  runScriptFrom 0 [] steps

/-- Checks that, starting from `n` operations in flight, the trace never has
two operations in flight at once: an operation is only issued when none is
in flight, and a completion only happens while one is. -/
def atMostOneInFlight : List TraceEvent → ℕ → Bool
  | [], _ => true
  | TraceEvent.issued _ :: t, n => decide (n = 0) && atMostOneInFlight t (n + 1)
  | TraceEvent.completed _ :: t, n => decide (0 < n) && atMostOneInFlight t (n - 1)

/-- The operation indices in the order they are issued in the trace. -/
def issuedIndices : List TraceEvent → List ℕ
  | [] => []
  | TraceEvent.issued i :: t => i :: issuedIndices t
  | TraceEvent.completed _ :: t => issuedIndices t

end Notebook

open ManagedNet ManagedNet.Validator in
/-- A rule list has a duplicate name exactly when its name list is not
nodup; connects the executable duplicate check with the semantic notion of
two rules sharing a name. -/
theorem hasDuplicateNames_iff (rs : List ManagedNet.OutboundRule) :
    hasDuplicateNames rs = true ↔ ¬ (ruleNames rs).Nodup := by
  induction rs with
  | nil => simp [hasDuplicateNames, ruleNames]
  | cons r rs ih =>
    simp only [hasDuplicateNames, ruleNames, List.map_cons, List.nodup_cons,
      Bool.or_eq_true, List.any_eq_true, beq_iff_eq, ih, List.mem_map,
      ruleNames] at *
    constructor
    · rintro (⟨s, hs, hname⟩ | hdup) ⟨hmem, hnd⟩
      · exact hmem ⟨s, hs, hname⟩
      · exact hdup hnd
    · intro h
      by_cases hmem : ∃ a ∈ rs, a.name = r.name
      · exact Or.inl hmem
      · exact Or.inr (fun hnd => h ⟨fun hx => hmem hx, hnd⟩)

open ManagedNet ManagedNet.Validator in
/-- C1: one-directional isolation-mode transition.  From
`AllowOnlyApprovedOutbound`, any update to `AllowInternetOutbound` or
`Disabled` fails with `InvalidTransition`; the forward update from
`AllowInternetOutbound` to `AllowOnlyApprovedOutbound` succeeds; and no
client operation on an existing configuration moves the mode away from
`AllowOnlyApprovedOutbound` (a successful mode update keeps it, and adding
a rule never changes the mode). -/
theorem isolation_mode_one_directional :
    (∀ (cfg : ManagedNetwork) (target : IsolationMode),
      cfg.isolation_mode = IsolationMode.AllowOnlyApprovedOutbound →
      (target = IsolationMode.AllowInternetOutbound ∨ target = IsolationMode.Disabled) →
      updateIsolationMode cfg target = Except.error ValidationError.InvalidTransition) ∧
    (∀ cfg : ManagedNetwork,
      cfg.isolation_mode = IsolationMode.AllowInternetOutbound →
      updateIsolationMode cfg IsolationMode.AllowOnlyApprovedOutbound =
        Except.ok { cfg with isolation_mode := IsolationMode.AllowOnlyApprovedOutbound }) ∧
    (∀ (cfg cfg' : ManagedNetwork) (target : IsolationMode),
      cfg.isolation_mode = IsolationMode.AllowOnlyApprovedOutbound →
      updateIsolationMode cfg target = Except.ok cfg' →
      cfg'.isolation_mode = IsolationMode.AllowOnlyApprovedOutbound) ∧
    (∀ (cfg cfg' : ManagedNetwork) (r : OutboundRule),
      addOutboundRule cfg r = Except.ok cfg' →
      cfg'.isolation_mode = cfg.isolation_mode) := by
  refine ⟨?_, ?_, ?_, ?_⟩
  · intro cfg target h1 h2
    have ht : target ≠ IsolationMode.AllowOnlyApprovedOutbound := by
      rcases h2 with rfl | rfl <;> simp
    simp [updateIsolationMode, validateTransition, h1, ht]
  · intro cfg h1
    simp [updateIsolationMode, validateTransition, h1]
  · intro cfg cfg' target h1 h2
    by_cases ht : target = IsolationMode.AllowOnlyApprovedOutbound
    · subst ht
      simp [updateIsolationMode, validateTransition] at h2
      simp [← h2]
    · simp [updateIsolationMode, validateTransition, h1, ht] at h2
  · intro cfg cfg' r h
    unfold addOutboundRule at h
    split at h
    · split at h
      · simp at h
      · simp only [Except.ok.injEq] at h
        simp [← h]
    · simp at h

open ManagedNet ManagedNet.Validator in
/-- Witness for C1 at the configurations of the notebook: an
AllowOnlyApprovedOutbound workspace refuses the update back to
AllowInternetOutbound with InvalidTransition, while the forward update of
the AllowInternetOutbound workspace succeeds. -/
theorem isolation_mode_one_directional_witness :
    updateIsolationMode
        { isolation_mode := IsolationMode.AllowOnlyApprovedOutbound, outbound_rules := [] }
        IsolationMode.AllowInternetOutbound =
      Except.error ValidationError.InvalidTransition ∧
    updateIsolationMode
        { isolation_mode := IsolationMode.AllowInternetOutbound, outbound_rules := [] }
        IsolationMode.AllowOnlyApprovedOutbound =
      Except.ok
        { isolation_mode := IsolationMode.AllowOnlyApprovedOutbound, outbound_rules := [] } :=
  ⟨isolation_mode_one_directional.1 _ _ rfl (Or.inl rfl),
   isolation_mode_one_directional.2.1 _ rfl⟩

open ManagedNet ManagedNet.Validator in
/-- C2: duplicate rule names are rejected.  `validate` fails with
`DuplicateRuleName` on any configuration whose rules do not have pairwise
distinct names; adding a mode-compatible rule whose name is already present
fails with `DuplicateRuleName`; adding a mode-compatible rule with a fresh
name succeeds. -/
theorem duplicate_rule_name_rejected :
    (∀ cfg : ManagedNetwork,
      ¬ (ruleNames cfg.outbound_rules).Nodup →
      validate cfg = Except.error ValidationError.DuplicateRuleName) ∧
    (∀ (cfg : ManagedNetwork) (r : OutboundRule),
      ruleSupportedForMode cfg.isolation_mode r = true →
      r.name ∈ ruleNames cfg.outbound_rules →
      addOutboundRule cfg r = Except.error ValidationError.DuplicateRuleName) ∧
    (∀ (cfg : ManagedNetwork) (r : OutboundRule),
      ruleSupportedForMode cfg.isolation_mode r = true →
      r.name ∉ ruleNames cfg.outbound_rules →
      addOutboundRule cfg r =
        Except.ok { cfg with outbound_rules := cfg.outbound_rules ++ [r] }) := by
  refine ⟨?_, ?_, ?_⟩
  · intro cfg h
    simp [validate, (hasDuplicateNames_iff cfg.outbound_rules).2 h]
  · intro cfg r h1 h2
    simp [addOutboundRule, h1, h2]
  · intro cfg r h1 h2
    simp [addOutboundRule, h1, h2]

open ManagedNet ManagedNet.Validator in
/-- Witness for C2 at the spec's example rule: under
AllowOnlyApprovedOutbound, adding ServiceTag rule r1 to the empty rule set
succeeds, adding a second rule named r1 fails with DuplicateRuleName, and
validate rejects a configuration holding two rules named r1. -/
theorem duplicate_rule_name_rejected_witness :
    addOutboundRule
        { isolation_mode := IsolationMode.AllowOnlyApprovedOutbound, outbound_rules := [] }
        (ServiceTagDestination "r1" "AzureCloud" "TCP" "80,8080") =
      Except.ok
        { isolation_mode := IsolationMode.AllowOnlyApprovedOutbound,
          outbound_rules := [ServiceTagDestination "r1" "AzureCloud" "TCP" "80,8080"] } ∧
    addOutboundRule
        { isolation_mode := IsolationMode.AllowOnlyApprovedOutbound,
          outbound_rules := [ServiceTagDestination "r1" "AzureCloud" "TCP" "80,8080"] }
        (ServiceTagDestination "r1" "AzureCloud" "TCP" "81") =
      Except.error ValidationError.DuplicateRuleName ∧
    validate
        { isolation_mode := IsolationMode.AllowOnlyApprovedOutbound,
          outbound_rules := [ServiceTagDestination "r1" "AzureCloud" "TCP" "80,8080",
            FqdnDestination "r1" "pypi.org"] } =
      Except.error ValidationError.DuplicateRuleName :=
  ⟨duplicate_rule_name_rejected.2.2 _ _ (by decide) (by decide),
   duplicate_rule_name_rejected.2.1 _ _ (by decide) (by decide),
   duplicate_rule_name_rejected.1 _ (by decide)⟩

open ManagedNet ManagedNet.Validator in
/-- C3: under `AllowInternetOutbound`, adding a ServiceTag rule or an FQDN
rule always fails with `UnsupportedRuleForMode`, and any rule accepted in
that mode is a PrivateEndpoint rule. -/
theorem unsupported_rule_for_aio_mode :
    (∀ (cfg : ManagedNetwork) (name service_tag protocol port_ranges : String),
      cfg.isolation_mode = IsolationMode.AllowInternetOutbound →
      addOutboundRule cfg (ServiceTagDestination name service_tag protocol port_ranges) =
        Except.error ValidationError.UnsupportedRuleForMode) ∧
    (∀ (cfg : ManagedNetwork) (name destination : String),
      cfg.isolation_mode = IsolationMode.AllowInternetOutbound →
      addOutboundRule cfg (FqdnDestination name destination) =
        Except.error ValidationError.UnsupportedRuleForMode) ∧
    (∀ (cfg cfg' : ManagedNetwork) (r : OutboundRule),
      cfg.isolation_mode = IsolationMode.AllowInternetOutbound →
      addOutboundRule cfg r = Except.ok cfg' →
      ∃ sid sub spark, r.dest = RuleDest.privateEndpoint sid sub spark) := by
  refine ⟨?_, ?_, ?_⟩
  · intro cfg name st p pr h
    simp [addOutboundRule, ruleSupportedForMode, ServiceTagDestination, h]
  · intro cfg name d h
    simp [addOutboundRule, ruleSupportedForMode, FqdnDestination, h]
  · intro cfg cfg' r h hadd
    rcases hdest : r.dest with ⟨st, p, pr⟩ | d | ⟨sid, sub, spark⟩
    · simp [addOutboundRule, ruleSupportedForMode, hdest, h] at hadd
    · simp [addOutboundRule, ruleSupportedForMode, hdest, h] at hadd
    · exact ⟨sid, sub, spark, rfl⟩

open ManagedNet ManagedNet.Validator in
/-- Witness for C3 at the notebook's AllowInternetOutbound managed network:
both a ServiceTag rule and an FQDN rule are rejected with
UnsupportedRuleForMode. -/
theorem unsupported_rule_for_aio_mode_witness :
    addOutboundRule
        { isolation_mode := IsolationMode.AllowInternetOutbound, outbound_rules := [] }
        (ServiceTagDestination "servicetagrule" "AzureCloud" "TCP" "80, 8080") =
      Except.error ValidationError.UnsupportedRuleForMode ∧
    addOutboundRule
        { isolation_mode := IsolationMode.AllowInternetOutbound, outbound_rules := [] }
        (FqdnDestination "fqdnrule" "pypi.org") =
      Except.error ValidationError.UnsupportedRuleForMode :=
  ⟨unsupported_rule_for_aio_mode.1 _ _ _ _ _ rfl,
   unsupported_rule_for_aio_mode.2.1 _ _ _ rfl⟩

open ManagedNet ManagedNet.Validator in
/-- C4: a PrivateEndpoint rule with a fresh name is accepted under every
isolation mode: adding it succeeds and appends the rule. -/
theorem private_endpoint_accepted_every_mode :
    ∀ (cfg : ManagedNetwork) (name sid sub : String) (spark : Bool),
      name ∉ ruleNames cfg.outbound_rules →
      addOutboundRule cfg (PrivateEndpointDestination name sid sub spark) =
        Except.ok { cfg with outbound_rules :=
          cfg.outbound_rules ++ [PrivateEndpointDestination name sid sub spark] } := by
  intro cfg name sid sub spark hname
  simp [addOutboundRule, ruleSupportedForMode, PrivateEndpointDestination, hname]

open ManagedNet ManagedNet.Validator in
/-- Witness for C4: the notebook's PrivateEndpoint rule is accepted in each
of the three isolation modes, starting from an empty rule set. -/
theorem private_endpoint_accepted_every_mode_witness :
    addOutboundRule
        { isolation_mode := IsolationMode.Disabled, outbound_rules := [] }
        (PrivateEndpointDestination "privateendpointrule" "storage-account-id" "table" false) =
      Except.ok
        { isolation_mode := IsolationMode.Disabled,
          outbound_rules :=
            [PrivateEndpointDestination "privateendpointrule" "storage-account-id" "table" false] } ∧
    addOutboundRule
        { isolation_mode := IsolationMode.AllowInternetOutbound, outbound_rules := [] }
        (PrivateEndpointDestination "privateendpointrule" "storage-account-id" "table" false) =
      Except.ok
        { isolation_mode := IsolationMode.AllowInternetOutbound,
          outbound_rules :=
            [PrivateEndpointDestination "privateendpointrule" "storage-account-id" "table" false] } ∧
    addOutboundRule
        { isolation_mode := IsolationMode.AllowOnlyApprovedOutbound, outbound_rules := [] }
        (PrivateEndpointDestination "privateendpointrule" "storage-account-id" "table" false) =
      Except.ok
        { isolation_mode := IsolationMode.AllowOnlyApprovedOutbound,
          outbound_rules :=
            [PrivateEndpointDestination "privateendpointrule" "storage-account-id" "table" false] } :=
  ⟨private_endpoint_accepted_every_mode _ _ _ _ _ (by decide),
   private_endpoint_accepted_every_mode _ _ _ _ _ (by decide),
   private_endpoint_accepted_every_mode _ _ _ _ _ (by decide)⟩

open ManagedNet ManagedNet.Validator ManagedNet.Facade in
/-- C5: when the pre-flight validation of an operation fails, the
validation error is returned synchronously as the operation's outcome and
no remote call at all is issued. -/
theorem validation_failure_no_remote_call :
    ∀ (remote : RemoteCall → RemoteResponse) (current : Workspace)
      (op : FacadeOp) (e : ValidationError),
      preflight current op = Except.error e →
      clientOperation remote current op = (Except.error e, []) := by
  intro remote current op e h
  simp [clientOperation, h]

open ManagedNet ManagedNet.Validator ManagedNet.Facade in
/-- Witness for C5: attempting to move the AllowOnlyApprovedOutbound
workspace back to Disabled returns InvalidTransition synchronously and
issues no remote call, whatever the remote service would answer. -/
theorem validation_failure_no_remote_call_witness :
    clientOperation (fun _ => RemoteResponse.succeeded (Notebook.ws_mvnet "202401010000"))
        { name := "mlw-mvnet-prod-202401010000", location := "eastus",
          managed_network :=
            { isolation_mode := IsolationMode.AllowOnlyApprovedOutbound,
              outbound_rules := [] } }
        (FacadeOp.updateIsolationMode IsolationMode.Disabled) =
      (Except.error ValidationError.InvalidTransition, []) :=
  validation_failure_no_remote_call _ _ _ _ rfl

open ManagedNet ManagedNet.Validator in
/-- C6: the validator is a pure, deterministic function of the
configuration value: two calls on equal configurations return equal
results (side-effect freedom is intrinsic to the functional embedding —
`validate` returns a result and cannot mutate its argument). -/
theorem validate_pure_deterministic :
    ∀ cfg1 cfg2 : ManagedNetwork, cfg1 = cfg2 → validate cfg1 = validate cfg2 := by
  intro cfg1 cfg2 h
  rw [h]

open ManagedNet ManagedNet.Validator in
/-- Witness for C6 at the notebook's initial managed network. -/
theorem validate_pure_deterministic_witness :
    validate Notebook.managed_network = validate Notebook.managed_network :=
  validate_pure_deterministic _ _ rfl

open ManagedNet ManagedNet.Validator in
/-- C7: the client never assigns the status or category of a rule: every
client-constructed rule carries no status and no category, and every
successful client operation whose inputs carry only unassigned rules
produces a configuration whose rules are all still unassigned. -/
theorem client_never_assigns_status_or_category :
    (∀ name st p pr, (ServiceTagDestination name st p pr).status = none ∧
      (ServiceTagDestination name st p pr).category = none) ∧
    (∀ name d, (FqdnDestination name d).status = none ∧
      (FqdnDestination name d).category = none) ∧
    (∀ name sid sub spark, (PrivateEndpointDestination name sid sub spark).status = none ∧
      (PrivateEndpointDestination name sid sub spark).category = none) ∧
    (∀ (cfg cfg' : ManagedNetwork) (op : ClientOp),
      rulesUnassigned cfg.outbound_rules = true →
      opRulesUnassigned op = true →
      applyClientOp cfg op = Except.ok cfg' →
      rulesUnassigned cfg'.outbound_rules = true) := by
  refine ⟨fun name st p pr => ⟨rfl, rfl⟩, fun name d => ⟨rfl, rfl⟩,
    fun name sid sub spark => ⟨rfl, rfl⟩, ?_⟩
  intro cfg cfg' op hcfg hop happ
  cases op with
  | createWorkspace c =>
      simp only [applyClientOp] at happ
      cases hv : validate c with
      | ok u =>
          rw [hv] at happ
          simp only [Except.ok.injEq] at happ
          subst happ
          simpa [opRulesUnassigned] using hop
      | error e =>
          rw [hv] at happ
          simp at happ
  | updateIsolationMode target =>
      simp only [applyClientOp, updateIsolationMode] at happ
      cases hvt : validateTransition cfg.isolation_mode target with
      | ok u =>
          rw [hvt] at happ
          simp only [Except.ok.injEq] at happ
          subst happ
          simpa using hcfg
      | error e =>
          rw [hvt] at happ
          simp at happ
  | addOutboundRule r =>
      simp only [applyClientOp] at happ
      unfold addOutboundRule at happ
      split at happ
      · split at happ
        · simp at happ
        · simp only [Except.ok.injEq] at happ
          subst happ
          simp only [opRulesUnassigned] at hop
          simp only [rulesUnassigned] at hcfg ⊢
          simp [List.all_append, hcfg, hop]
      · simp at happ

open ManagedNet ManagedNet.Validator in
/-- Witness for C7: the notebook's ServiceTag rule carries no status and no
category, and adding it to the AllowOnlyApprovedOutbound workspace leaves
every rule of the resulting configuration unassigned. -/
theorem client_never_assigns_status_or_category_witness :
    (ServiceTagDestination "servicetagrule" "AzureCloud" "TCP" "80, 8080").status = none ∧
    (ServiceTagDestination "servicetagrule" "AzureCloud" "TCP" "80, 8080").category = none ∧
    rulesUnassigned
        (({ isolation_mode := IsolationMode.AllowOnlyApprovedOutbound,
            outbound_rules :=
              [ServiceTagDestination "servicetagrule" "AzureCloud" "TCP" "80, 8080"] } :
          ManagedNetwork).outbound_rules) = true :=
  ⟨(client_never_assigns_status_or_category.1 "servicetagrule" "AzureCloud" "TCP" "80, 8080").1,
   (client_never_assigns_status_or_category.1 "servicetagrule" "AzureCloud" "TCP" "80, 8080").2,
   client_never_assigns_status_or_category.2.2.2
     { isolation_mode := IsolationMode.AllowOnlyApprovedOutbound, outbound_rules := [] }
     _ (ClientOp.addOutboundRule
        (ServiceTagDestination "servicetagrule" "AzureCloud" "TCP" "80, 8080"))
     rfl rfl rfl⟩

open Notebook in
/-- C8: sequential execution of the notebook's remote operations — the
execution trace of the notebook script issues the nine operations one at a
time in source order, each one completing before the next is issued, with
never two operations in flight, and every long-running operation's result
is awaited. -/
theorem notebook_sequential_execution :
    ∀ timestamp storage_account : String,
      runScript (notebookSteps timestamp storage_account) =
        [TraceEvent.issued 0, TraceEvent.completed 0,
         TraceEvent.issued 1, TraceEvent.completed 1,
         TraceEvent.issued 2, TraceEvent.completed 2,
         TraceEvent.issued 3, TraceEvent.completed 3,
         TraceEvent.issued 4, TraceEvent.completed 4,
         TraceEvent.issued 5, TraceEvent.completed 5,
         TraceEvent.issued 6, TraceEvent.completed 6,
         TraceEvent.issued 7, TraceEvent.completed 7,
         TraceEvent.issued 8, TraceEvent.completed 8] ∧
      atMostOneInFlight (runScript (notebookSteps timestamp storage_account)) 0 = true ∧
      issuedIndices (runScript (notebookSteps timestamp storage_account)) =
        List.range (notebookSteps timestamp storage_account).length ∧
      (notebookSteps timestamp storage_account).all
        (fun s => !s.longRunning || s.resultAwaited) = true := by
  intro timestamp storage_account
  exact ⟨rfl, rfl, rfl, rfl⟩

open ManagedNet ManagedNet.Facade in
/-- C9: the facade issues exactly one remote call per operation — the
serialized form of that operation — and its result is exactly the
deserialization of the remote response, where deserialization is injective,
so the remote outcome is relayed to the caller unmodified. -/
theorem facade_single_call_relays_outcome :
    (∀ (remote : RemoteCall → RemoteResponse) (current : Workspace) (op : FacadeOp),
      (facade remote current op).2 = [serializeOp current op] ∧
      (facade remote current op).1 =
        deserializeResponse (remote (serializeOp current op))) ∧
    (∀ r1 r2 : RemoteResponse,
      deserializeResponse r1 = deserializeResponse r2 → r1 = r2) := by
  refine ⟨fun remote current op => ⟨rfl, rfl⟩, ?_⟩
  intro r1 r2 h
  cases r1 <;> cases r2 <;> simp_all [deserializeResponse]

open ManagedNet ManagedNet.Facade in
/-- Witness for C9: provisioning the notebook workspace against a remote
that reports a conflict issues the single provision call and relays the
failure message unmodified. -/
theorem facade_single_call_relays_outcome_witness :
    (facade (fun _ => RemoteResponse.failed "conflict") (Notebook.ws_mvnet "202401010000")
        FacadeOp.provisionNetwork).2 =
      [RemoteCall.workspacesBeginProvisionNetwork
        (Notebook.mvnet_workspace_name "202401010000")] ∧
    (facade (fun _ => RemoteResponse.failed "conflict") (Notebook.ws_mvnet "202401010000")
        FacadeOp.provisionNetwork).1 = FacadeResult.remoteFailure "conflict" ∧
    RemoteResponse.failed "conflict" = RemoteResponse.failed "conflict" :=
  ⟨(facade_single_call_relays_outcome.1 (fun _ => RemoteResponse.failed "conflict")
      (Notebook.ws_mvnet "202401010000") FacadeOp.provisionNetwork).1,
   (facade_single_call_relays_outcome.1 (fun _ => RemoteResponse.failed "conflict")
      (Notebook.ws_mvnet "202401010000") FacadeOp.provisionNetwork).2,
   facade_single_call_relays_outcome.2 _ _ rfl⟩

/-- C10: the static sweep-job configuration is numerically well formed: its
uniform `learning_rate` distribution satisfies `min_value < max_value`
(0.01 < 0.9) and its limits satisfy
`max_concurrent_trials <= max_total_trials` (10 <= 20), so the declared
concurrency bound never exceeds the total-trial budget. -/
theorem sweep_job_config_well_formed :
    SweepJob.lightgbmIrisSweep.search_space.learning_rate.min_value <
      SweepJob.lightgbmIrisSweep.search_space.learning_rate.max_value ∧
    SweepJob.lightgbmIrisSweep.limits.max_concurrent_trials ≤
      SweepJob.lightgbmIrisSweep.limits.max_total_trials ∧
    SweepJob.lightgbmIrisSweep.search_space.learning_rate.min_value = 1 / 100 ∧
    SweepJob.lightgbmIrisSweep.search_space.learning_rate.max_value = 9 / 10 := by
  refine ⟨?_, ?_, ?_, ?_⟩ <;> norm_num [SweepJob.lightgbmIrisSweep]
